import Mathlib

/-!
Shallow embedding of the TransactiBatch SDK core
(src/TransactiBatch.ts, src/utils/gasEstimator.ts, src/utils/erc20.ts,
src/types/index.ts) for checking the specification claims.

Amounts are arbitrary-precision integers (ethers BigNumber), modelled as
Int.  Every network-facing collaborator call (allowance query, gas
simulation, gas price query, transaction submission, token approval) is
recorded in an explicit trace, and the network collaborator is a record
of pure response functions, so each public operation of the SDK becomes
a pure function returning a result together with the list of collaborator
calls it issued, in order.
-/

/-- Parse one decimal digit, as the ethers BigNumber string parser does;
48 is the code point of the digit zero. -/
def digitVal (c : Char) : Option Nat :=
  if c.isDigit then some (c.toNat - 48) else none

/-- Accumulate decimal digits left to right; fails on any non-digit. -/
def parseDigitsAux : List Char → Nat → Option Nat
  | [], acc => some acc
  | c :: cs, acc =>
    match digitVal c with
    | none => none
    | some d => parseDigitsAux cs (acc * 10 + d)

/-- Parse a non-empty all-digit character list into a Nat. -/
def parseNatDigits : List Char → Option Nat
  | [] => none
  | c :: cs => parseDigitsAux (c :: cs) 0

/-- Parse one hexadecimal digit: decimal digits, lowercase a to f
(code points 97 to 102) or uppercase A to F (code points 65 to 70),
matching the case-insensitive hex regex of ethers. -/
def hexDigitVal (c : Char) : Option Nat :=
  if c.isDigit then some (c.toNat - 48)
  else if 97 ≤ c.toNat ∧ c.toNat ≤ 102 then some (c.toNat - 87)
  else if 65 ≤ c.toNat ∧ c.toNat ≤ 70 then some (c.toNat - 55)
  else none

/-- Accumulate hexadecimal digits left to right; fails on any
non-hex-digit. -/
def parseHexAux : List Char → Nat → Option Nat
  | [], acc => some acc
  | c :: cs, acc =>
    match hexDigitVal c with
    | none => none
    | some d => parseHexAux cs (acc * 16 + d)

/-- Parse a non-empty all-hex-digit character list into a Nat. -/
def parseHexDigits : List Char → Option Nat
  | [] => none
  | c :: cs => parseHexAux (c :: cs) 0

/-- The unsigned part of the ethers BigNumber string grammar: a zero
(code point 48) followed by x or X (code points 120, 88) and one or
more hex digits, or else one or more decimal digits. -/
def parseUnsigned (l : List Char) : Option Nat :=
  match l with
  | c0 :: c1 :: rest =>
    if c0 = Char.ofNat 48 ∧ (c1 = Char.ofNat 120 ∨ c1 = Char.ofNat 88) then
      parseHexDigits rest
    else
      parseNatDigits (c0 :: c1 :: rest)
  | _ => parseNatDigits l

/-- Model of ethers.BigNumber.from on a string: an optional leading
minus sign (code point 45) followed by either one or more decimal
digits or a case-insensitive 0x hex string yields an integer, so
negative values are accepted; anything else throws, modelled as none. -/
def bigNumberFrom (s : String) : Option Int :=
  match s.data with
  | [] => none
  | c :: cs =>
    if c = Char.ofNat 45 then
      (parseUnsigned cs).map (fun n => -(n : Int))
    else
      (parseUnsigned (c :: cs)).map (fun n => (n : Int))

/-- recipients.map applying BigNumber.from to each amount field: the
whole map throws as soon as one entry fails to parse. -/
def parseAmounts (l : List String) : Option (List Int) :=
  l.mapM bigNumberFrom

/-- amounts.reduce with BigNumber add starting from zero, exactly the
fold the source uses to aggregate a list of amounts. -/
def sumBN (l : List Int) : Int :=
  l.foldl (fun acc amount => acc + amount) 0

/-- A value passed as a positional argument of a contract method call. -/
inductive Arg where
  | addr (a : String)
  | num (n : Int)
  | addrList (l : List String)
  | numList (l : List Int)
deriving Repr, DecidableEq

/-- The transaction option bundle built by each operation and handed to
the contract call: gasLimit / gasPrice resolved against the configured
defaults, the attached native value (absent for pure-token calls, which
attach zero), and the caller nonce. -/
structure TxEnvelope where
  gasLimit : Option Int
  gasPrice : Option Int
  value : Option Int
  nonce : Option Int
deriving Repr, DecidableEq

/-- The native value actually attached on chain: the value field when
present, zero when the operation omitted it. -/
def TxEnvelope.attachedValue (e : TxEnvelope) : Int :=
  e.value.getD 0

/-- One collaborator call issued by the SDK, in program order. -/
inductive NetCall where
  | allowanceQuery (token owner spender : String)
  | gasSimulation (method : String) (args : List Arg) (value : Int)
      (gasLimitOpt : Option Int)
  | gasPriceQuery
  | submission (method : String) (args : List Arg) (opts : TxEnvelope)
  | approvalCall (token spender amount : String) (opts : TxEnvelope)
deriving Repr, DecidableEq

def NetCall.isAllowanceQuery : NetCall → Bool
  | .allowanceQuery _ _ _ => true
  | _ => false

def NetCall.isSubmission : NetCall → Bool
  | .submission _ _ _ => true
  | _ => false

/-- The external collaborators (ledger client and token contract),
modelled as pure response functions: allowance(token, owner, spender),
the current network gas price, and the gas simulation for a call
(none models a reverting simulation). -/
structure Network where
  allowance : String → String → String → Int
  gasPriceNet : Int
  gasSim : String → List Arg → Int → Option Int

/-- Error taxonomy of the SDK (section 7 of the spec); each constructor
corresponds to one thrown Error of the source. -/
inductive SdkError where
  | emptyRecipientSet
  | noSignerAttached
  | invalidAmount
  | insufficientAllowance (required : Int)
  | estimationFailed
deriving Repr, DecidableEq

/-- Message of the insufficient-allowance error, as built in
sendTokenBatch / sendTokenEqualBatch / sendMixedBatch /
sendMixedEqualBatch. -/
def insufficientAllowanceMessage (required : Int) : String :=
  "Insufficient token allowance. Please approve the contract to spend at least "
    ++ toString required ++ " tokens."

/-- An ethers Contract binding: its address and the optionally attached
signer (modelled by the signer address). -/
structure Contract where
  address : String
  signer : Option String
deriving Repr, DecidableEq

/-- contract.connect(signer): returns a rebound Contract handle. -/
def Contract.connectSigner (c : Contract) (s : String) : Contract :=
  { c with signer := some s }

/-- An ethers provider: built from a JSON-RPC url string or supplied
pre-built (identified by an opaque handle). -/
inductive Provider where
  | jsonRpc (url : String)
  | handle (h : Nat)
deriving Repr, DecidableEq

structure SdkConfig where
  provider : Sum String Provider
  contractAddress : String
  defaultGasLimit : Option Int
  defaultGasPrice : Option Int
deriving Repr, DecidableEq

structure Recipient where
  address : String
  amount : String
deriving Repr, DecidableEq

structure EthBatchParams where
  recipients : List Recipient
deriving Repr, DecidableEq

structure EthEqualBatchParams where
  addresses : List String
  amount : String
deriving Repr, DecidableEq

structure TokenBatchParams where
  tokenAddress : String
  recipients : List Recipient
deriving Repr, DecidableEq

structure TokenEqualBatchParams where
  tokenAddress : String
  addresses : List String
  amount : String
deriving Repr, DecidableEq

structure MixedRecipient where
  address : String
  tokenAmount : String
  ethAmount : String
deriving Repr, DecidableEq

structure MixedBatchParams where
  tokenAddress : String
  recipients : List MixedRecipient
deriving Repr, DecidableEq

structure MixedEqualBatchParams where
  tokenAddress : String
  addresses : List String
  tokenAmount : String
  ethAmount : String
deriving Repr, DecidableEq

structure TransactionOptions where
  gasLimit : Option Int
  gasPrice : Option Int
  nonce : Option Int
deriving Repr, DecidableEq

structure GasEstimation where
  gasLimit : Int
  gasPrice : Int
  totalCost : Int
deriving Repr, DecidableEq

/-- The TransactiBatch instance state.  The id field models object
identity of the TypeScript instance: the constructor receives a fresh
id, and an operation that returns the very same instance (return this)
preserves it. -/
structure TransactiBatchState where
  id : Nat
  provider : Provider
  contract : Contract
  contractAddress : String
  defaultGasLimit : Option Int
  defaultGasPrice : Option Int
deriving Repr, DecidableEq

/-- The TransactiBatch constructor. -/
def mkTransactiBatch (config : SdkConfig) (freshId : Nat) : TransactiBatchState :=
  { id := freshId
  , provider :=
      match config.provider with
      | .inl url => Provider.jsonRpc url
      | .inr p => p
  , contractAddress := config.contractAddress
  , contract := { address := config.contractAddress, signer := none }
  , defaultGasLimit := config.defaultGasLimit
  , defaultGasPrice := config.defaultGasPrice }

/-- connect(signer): this.contract = this.contract.connect(signer);
return this.  Rebinding of the contract handle on the same instance. -/
def connect (st : TransactiBatchState) (signer : String) : TransactiBatchState :=
  { st with contract := st.contract.connectSigner signer }

/-- The transaction response of a successful send: which contract method
was invoked, with which positional arguments and option bundle. -/
structure TxResponse where
  method : String
  args : List Arg
  opts : TxEnvelope
deriving Repr, DecidableEq

/-- Resolution of the per-call option bundle against the configured
defaults, common to every operation:
gasLimit = options.gasLimit else defaultGasLimit,
gasPrice = options.gasPrice else defaultGasPrice,
nonce = options.nonce only. -/
def buildTxOptions (st : TransactiBatchState) (options : TransactionOptions)
    (value : Option Int) : TxEnvelope :=
  { gasLimit := (options.gasLimit).orElse (fun _ => st.defaultGasLimit)
  , gasPrice := (options.gasPrice).orElse (fun _ => st.defaultGasPrice)
  , value := value
  , nonce := options.nonce }

/-- hasEnoughAllowance of src/utils/erc20.ts: queries
allowance(owner, spender) on the token and compares with gte; returns
the verdict together with the one network call it performs. -/
def hasEnoughAllowance (net : Network)
    (tokenAddress ownerAddress spenderAddress : String)
    (amountNeeded : Int) : Bool × List NetCall :=
  ( amountNeeded ≤ net.allowance tokenAddress ownerAddress spenderAddress
  , [NetCall.allowanceQuery tokenAddress ownerAddress spenderAddress] )

/-- estimateGas of src/utils/gasEstimator.ts: simulate the call for a
gas limit (a reverting simulation throws, wrapped as estimationFailed),
then resolve the gas price (caller option if present, else one network
query), and return the triple with totalCost = gasLimit * gasPrice. -/
def estimateGas (net : Network) (contract : Contract) (method : String)
    (params : List Arg) (value : Int) (options : TransactionOptions) :
    Except SdkError GasEstimation × List NetCall :=
  match net.gasSim method params value with
  | none =>
      ( .error .estimationFailed
      , [NetCall.gasSimulation method params value options.gasLimit] )
  | some gasLimit =>
      match options.gasPrice with
      | some gp =>
          ( .ok { gasLimit := gasLimit, gasPrice := gp
                , totalCost := gasLimit * gp }
          , [NetCall.gasSimulation method params value options.gasLimit] )
      | none =>
          ( .ok { gasLimit := gasLimit, gasPrice := net.gasPriceNet
                , totalCost := gasLimit * net.gasPriceNet }
          , [ NetCall.gasSimulation method params value options.gasLimit
            , NetCall.gasPriceQuery ] )

/-- sendEthBatch: validate non-empty, parse amounts, aggregate the total
value, and submit multiTransfer_OST(addresses, amounts) with the total
attached as value. -/
def sendEthBatch (net : Network) (st : TransactiBatchState)
    (params : EthBatchParams) (options : TransactionOptions) :
    Except SdkError TxResponse × List NetCall :=
  if params.recipients.length = 0 then
    (.error .emptyRecipientSet, [])
  else
    match parseAmounts (params.recipients.map Recipient.amount) with
    | none => (.error .invalidAmount, [])
    | some amounts =>
      let addresses := params.recipients.map Recipient.address
      let totalValue := sumBN amounts
      let txOptions := buildTxOptions st options (some totalValue)
      let args := [Arg.addrList addresses, Arg.numList amounts]
      ( .ok { method := "multiTransfer_OST", args := args, opts := txOptions }
      , [NetCall.submission "multiTransfer_OST" args txOptions] )

/-- estimateEthBatchGas: same validation and aggregation as sendEthBatch,
then forwards method, arguments and value to estimateGas. -/
def estimateEthBatchGas (net : Network) (st : TransactiBatchState)
    (params : EthBatchParams) (options : TransactionOptions) :
    Except SdkError GasEstimation × List NetCall :=
  if params.recipients.length = 0 then
    (.error .emptyRecipientSet, [])
  else
    match parseAmounts (params.recipients.map Recipient.amount) with
    | none => (.error .invalidAmount, [])
    | some amounts =>
      let addresses := params.recipients.map Recipient.address
      let totalValue := sumBN amounts
      estimateGas net st.contract "multiTransfer_OST"
        [Arg.addrList addresses, Arg.numList amounts] totalValue options

/-- sendEthEqualBatch: validate non-empty, parse the single amount,
total = amount * count, submit multiTransferEqual_L1R(addresses, amount)
with the total attached as value. -/
def sendEthEqualBatch (net : Network) (st : TransactiBatchState)
    (params : EthEqualBatchParams) (options : TransactionOptions) :
    Except SdkError TxResponse × List NetCall :=
  if params.addresses.length = 0 then
    (.error .emptyRecipientSet, [])
  else
    match bigNumberFrom params.amount with
    | none => (.error .invalidAmount, [])
    | some amountBN =>
      let totalValue := amountBN * params.addresses.length
      let txOptions := buildTxOptions st options (some totalValue)
      let args := [Arg.addrList params.addresses, Arg.num amountBN]
      ( .ok { method := "multiTransferEqual_L1R", args := args, opts := txOptions }
      , [NetCall.submission "multiTransferEqual_L1R" args txOptions] )

/-- estimateEthEqualBatchGas: same aggregation as sendEthEqualBatch, then
forwards method, arguments and value to estimateGas. -/
def estimateEthEqualBatchGas (net : Network) (st : TransactiBatchState)
    (params : EthEqualBatchParams) (options : TransactionOptions) :
    Except SdkError GasEstimation × List NetCall :=
  if params.addresses.length = 0 then
    (.error .emptyRecipientSet, [])
  else
    match bigNumberFrom params.amount with
    | none => (.error .invalidAmount, [])
    | some amountBN =>
      let totalValue := amountBN * params.addresses.length
      estimateGas net st.contract "multiTransferEqual_L1R"
        [Arg.addrList params.addresses, Arg.num amountBN] totalValue options

/-- sendTokenBatch: validate non-empty, require a signer, parse amounts,
aggregate the token total, check allowance of (signer, contract address)
against the total, and submit
multiTransferToken_a4A(token, addresses, amounts, totalAmount) with no
value field (zero attached). -/
def sendTokenBatch (net : Network) (st : TransactiBatchState)
    (params : TokenBatchParams) (options : TransactionOptions) :
    Except SdkError TxResponse × List NetCall :=
  if params.recipients.length = 0 then
    (.error .emptyRecipientSet, [])
  else
    match st.contract.signer with
    | none => (.error .noSignerAttached, [])
    | some signerAddress =>
      match parseAmounts (params.recipients.map Recipient.amount) with
      | none => (.error .invalidAmount, [])
      | some amounts =>
        let addresses := params.recipients.map Recipient.address
        let totalAmount := sumBN amounts
        let checked := hasEnoughAllowance net params.tokenAddress signerAddress
          st.contractAddress totalAmount
        if checked.1 = false then
          (.error (.insufficientAllowance totalAmount), checked.2)
        else
          let txOptions := buildTxOptions st options none
          let args := [ Arg.addr params.tokenAddress, Arg.addrList addresses
                      , Arg.numList amounts, Arg.num totalAmount ]
          ( .ok { method := "multiTransferToken_a4A", args := args, opts := txOptions }
          , checked.2 ++ [NetCall.submission "multiTransferToken_a4A" args txOptions] )

/-- estimateTokenBatchGas: validate non-empty, parse amounts, aggregate
the token total, and forward to estimateGas with value zero.  The source
performs no signer check and no allowance check on this path. -/
def estimateTokenBatchGas (net : Network) (st : TransactiBatchState)
    (params : TokenBatchParams) (options : TransactionOptions) :
    Except SdkError GasEstimation × List NetCall :=
  if params.recipients.length = 0 then
    (.error .emptyRecipientSet, [])
  else
    match parseAmounts (params.recipients.map Recipient.amount) with
    | none => (.error .invalidAmount, [])
    | some amounts =>
      let addresses := params.recipients.map Recipient.address
      let totalAmount := sumBN amounts
      estimateGas net st.contract "multiTransferToken_a4A"
        [ Arg.addr params.tokenAddress, Arg.addrList addresses
        , Arg.numList amounts, Arg.num totalAmount ] 0 options

/-- sendTokenEqualBatch: validate non-empty, require a signer, parse the
single amount, total = amount * count, check allowance against the
total, and submit multiTransferTokenEqual_71p(token, addresses, amount)
with no value field (zero attached). -/
def sendTokenEqualBatch (net : Network) (st : TransactiBatchState)
    (params : TokenEqualBatchParams) (options : TransactionOptions) :
    Except SdkError TxResponse × List NetCall :=
  if params.addresses.length = 0 then
    (.error .emptyRecipientSet, [])
  else
    match st.contract.signer with
    | none => (.error .noSignerAttached, [])
    | some signerAddress =>
      match bigNumberFrom params.amount with
      | none => (.error .invalidAmount, [])
      | some amountBN =>
        let totalAmount := amountBN * params.addresses.length
        let checked := hasEnoughAllowance net params.tokenAddress signerAddress
          st.contractAddress totalAmount
        if checked.1 = false then
          (.error (.insufficientAllowance totalAmount), checked.2)
        else
          let txOptions := buildTxOptions st options none
          let args := [ Arg.addr params.tokenAddress
                      , Arg.addrList params.addresses, Arg.num amountBN ]
          ( .ok { method := "multiTransferTokenEqual_71p", args := args
                , opts := txOptions }
          , checked.2 ++
              [NetCall.submission "multiTransferTokenEqual_71p" args txOptions] )

/-- estimateTokenEqualBatchGas: validate non-empty, parse the single
amount, and forward to estimateGas with value zero.  The source performs
no signer check, no aggregation and no allowance check on this path. -/
def estimateTokenEqualBatchGas (net : Network) (st : TransactiBatchState)
    (params : TokenEqualBatchParams) (options : TransactionOptions) :
    Except SdkError GasEstimation × List NetCall :=
  if params.addresses.length = 0 then
    (.error .emptyRecipientSet, [])
  else
    match bigNumberFrom params.amount with
    | none => (.error .invalidAmount, [])
    | some amountBN =>
      estimateGas net st.contract "multiTransferTokenEqual_71p"
        [ Arg.addr params.tokenAddress
        , Arg.addrList params.addresses, Arg.num amountBN ] 0 options

/-- sendMixedBatch: validate non-empty, require a signer, parse token and
eth amounts, aggregate both totals, check allowance against the token
total, and submit
multiTransferTokenEther(token, addresses, tokenAmounts, totalTokenAmount,
ethAmounts) with the eth total attached as value. -/
def sendMixedBatch (net : Network) (st : TransactiBatchState)
    (params : MixedBatchParams) (options : TransactionOptions) :
    Except SdkError TxResponse × List NetCall :=
  if params.recipients.length = 0 then
    (.error .emptyRecipientSet, [])
  else
    match st.contract.signer with
    | none => (.error .noSignerAttached, [])
    | some signerAddress =>
      match parseAmounts (params.recipients.map MixedRecipient.tokenAmount) with
      | none => (.error .invalidAmount, [])
      | some tokenAmounts =>
        match parseAmounts (params.recipients.map MixedRecipient.ethAmount) with
        | none => (.error .invalidAmount, [])
        | some ethAmounts =>
          let addresses := params.recipients.map MixedRecipient.address
          let totalTokenAmount := sumBN tokenAmounts
          let totalEthValue := sumBN ethAmounts
          let checked := hasEnoughAllowance net params.tokenAddress signerAddress
            st.contractAddress totalTokenAmount
          if checked.1 = false then
            (.error (.insufficientAllowance totalTokenAmount), checked.2)
          else
            let txOptions := buildTxOptions st options (some totalEthValue)
            let args := [ Arg.addr params.tokenAddress, Arg.addrList addresses
                        , Arg.numList tokenAmounts, Arg.num totalTokenAmount
                        , Arg.numList ethAmounts ]
            ( .ok { method := "multiTransferTokenEther", args := args
                  , opts := txOptions }
            , checked.2 ++
                [NetCall.submission "multiTransferTokenEther" args txOptions] )

/-- estimateMixedBatchGas: validate non-empty, parse token and eth
amounts, aggregate both totals, and forward to estimateGas with the eth
total as value.  The source performs no signer check and no allowance
check on this path. -/
def estimateMixedBatchGas (net : Network) (st : TransactiBatchState)
    (params : MixedBatchParams) (options : TransactionOptions) :
    Except SdkError GasEstimation × List NetCall :=
  if params.recipients.length = 0 then
    (.error .emptyRecipientSet, [])
  else
    match parseAmounts (params.recipients.map MixedRecipient.tokenAmount) with
    | none => (.error .invalidAmount, [])
    | some tokenAmounts =>
      match parseAmounts (params.recipients.map MixedRecipient.ethAmount) with
      | none => (.error .invalidAmount, [])
      | some ethAmounts =>
        let addresses := params.recipients.map MixedRecipient.address
        let totalTokenAmount := sumBN tokenAmounts
        let totalEthValue := sumBN ethAmounts
        estimateGas net st.contract "multiTransferTokenEther"
          [ Arg.addr params.tokenAddress, Arg.addrList addresses
          , Arg.numList tokenAmounts, Arg.num totalTokenAmount
          , Arg.numList ethAmounts ] totalEthValue options

/-- sendMixedEqualBatch: validate non-empty, require a signer, parse the
token and eth amounts, totals = amount * count each, check allowance
against the token total, and submit
multiTransferTokenEtherEqual(token, addresses, tokenAmount, ethAmount)
with the eth total attached as value. -/
def sendMixedEqualBatch (net : Network) (st : TransactiBatchState)
    (params : MixedEqualBatchParams) (options : TransactionOptions) :
    Except SdkError TxResponse × List NetCall :=
  if params.addresses.length = 0 then
    (.error .emptyRecipientSet, [])
  else
    match st.contract.signer with
    | none => (.error .noSignerAttached, [])
    | some signerAddress =>
      match bigNumberFrom params.tokenAmount with
      | none => (.error .invalidAmount, [])
      | some tokenAmountBN =>
        match bigNumberFrom params.ethAmount with
        | none => (.error .invalidAmount, [])
        | some ethAmountBN =>
          let totalTokenAmount := tokenAmountBN * params.addresses.length
          let totalEthValue := ethAmountBN * params.addresses.length
          let checked := hasEnoughAllowance net params.tokenAddress signerAddress
            st.contractAddress totalTokenAmount
          if checked.1 = false then
            (.error (.insufficientAllowance totalTokenAmount), checked.2)
          else
            let txOptions := buildTxOptions st options (some totalEthValue)
            let args := [ Arg.addr params.tokenAddress
                        , Arg.addrList params.addresses
                        , Arg.num tokenAmountBN, Arg.num ethAmountBN ]
            ( .ok { method := "multiTransferTokenEtherEqual", args := args
                  , opts := txOptions }
            , checked.2 ++
                [NetCall.submission "multiTransferTokenEtherEqual" args txOptions] )

/-- estimateMixedEqualBatchGas: validate non-empty, parse the token and
eth amounts, eth total = ethAmount * count, and forward to estimateGas
with the eth total as value.  The source performs no signer check, no
token-total aggregation and no allowance check on this path. -/
def estimateMixedEqualBatchGas (net : Network) (st : TransactiBatchState)
    (params : MixedEqualBatchParams) (options : TransactionOptions) :
    Except SdkError GasEstimation × List NetCall :=
  if params.addresses.length = 0 then
    (.error .emptyRecipientSet, [])
  else
    match bigNumberFrom params.tokenAmount with
    | none => (.error .invalidAmount, [])
    | some tokenAmountBN =>
      match bigNumberFrom params.ethAmount with
      | none => (.error .invalidAmount, [])
      | some ethAmountBN =>
        let totalEthValue := ethAmountBN * params.addresses.length
        estimateGas net st.contract "multiTransferTokenEtherEqual"
          [ Arg.addr params.tokenAddress, Arg.addrList params.addresses
          , Arg.num tokenAmountBN, Arg.num ethAmountBN ] totalEthValue options

/-- sendEthToTwo: parse the two amounts, total = amount1 + amount2, and
submit transfer2(recipient1, amount1, recipient2, amount2) with the
total attached as value.  No empty-collection check applies. -/
def sendEthToTwo (net : Network) (st : TransactiBatchState)
    (recipient1 amount1 recipient2 amount2 : String)
    (options : TransactionOptions) :
    Except SdkError TxResponse × List NetCall :=
  match bigNumberFrom amount1 with
  | none => (.error .invalidAmount, [])
  | some amount1BN =>
    match bigNumberFrom amount2 with
    | none => (.error .invalidAmount, [])
    | some amount2BN =>
      let totalValue := amount1BN + amount2BN
      let txOptions := buildTxOptions st options (some totalValue)
      let args := [ Arg.addr recipient1, Arg.num amount1BN
                  , Arg.addr recipient2, Arg.num amount2BN ]
      ( .ok { method := "transfer2", args := args, opts := txOptions }
      , [NetCall.submission "transfer2" args txOptions] )

/-- estimateEthToTwoGas: same aggregation as sendEthToTwo, then forwards
method, arguments and value to estimateGas. -/
def estimateEthToTwoGas (net : Network) (st : TransactiBatchState)
    (recipient1 amount1 recipient2 amount2 : String)
    (options : TransactionOptions) :
    Except SdkError GasEstimation × List NetCall :=
  match bigNumberFrom amount1 with
  | none => (.error .invalidAmount, [])
  | some amount1BN =>
    match bigNumberFrom amount2 with
    | none => (.error .invalidAmount, [])
    | some amount2BN =>
      let totalValue := amount1BN + amount2BN
      estimateGas net st.contract "transfer2"
        [ Arg.addr recipient1, Arg.num amount1BN
        , Arg.addr recipient2, Arg.num amount2BN ] totalValue options

/-- approveTokenSpending: require a signer, then call approve of the
token contract for the batch contract address; gasLimit falls back to
the literal 60000 (not the configured default), gasPrice to the
configured default.  The amount string is forwarded unparsed. -/
def approveTokenSpending (net : Network) (st : TransactiBatchState)
    (tokenAddress amount : String) (options : TransactionOptions) :
    Except SdkError TxResponse × List NetCall :=
  match st.contract.signer with
  | none => (.error .noSignerAttached, [])
  | some _ =>
    let txOptions : TxEnvelope :=
      { gasLimit := (options.gasLimit).orElse (fun _ => some 60000)
      , gasPrice := (options.gasPrice).orElse (fun _ => st.defaultGasPrice)
      , value := none
      , nonce := options.nonce }
    ( .ok { method := "approve"
          , args := [Arg.addr st.contractAddress, Arg.addr amount]
          , opts := txOptions }
    , [NetCall.approvalCall tokenAddress st.contractAddress amount txOptions] )

/-! Concrete fixtures used by witnesses and counterexamples. -/

def stubNet : Network :=
  { allowance := fun _ _ _ => 1000
  , gasPriceNet := 7
  , gasSim := fun _ _ _ => some 21000 }

/-- A network whose token allowance is 100 for every query, used for the
insufficient-allowance scenarios. -/
def lowAllowanceNet : Network :=
  { allowance := fun _ _ _ => 100
  , gasPriceNet := 7
  , gasSim := fun _ _ _ => some 21000 }

def stubConfig : SdkConfig :=
  { provider := Sum.inl "http://localhost:8545"
  , contractAddress := "0xBatchContract"
  , defaultGasLimit := none
  , defaultGasPrice := none }

def stubState : TransactiBatchState := mkTransactiBatch stubConfig 0

def stubSigned : TransactiBatchState := connect stubState "0xSigner"

def noOptions : TransactionOptions :=
  { gasLimit := none, gasPrice := none, nonce := none }

/-! Shared helper lemmas. -/

/-- The gas estimator issues only a gas simulation and possibly a gas
price query: never an allowance query. -/
theorem estimateGas_trace_no_allowance (net : Network) (c : Contract)
    (m : String) (p : List Arg) (v : Int) (o : TransactionOptions) :
    ((estimateGas net c m p v o).2.all (fun x => !x.isAllowanceQuery)) = true := by
  unfold estimateGas
  cases h : net.gasSim m p v with
  | none => simp [h, NetCall.isAllowanceQuery]
  | some g =>
    cases hgp : o.gasPrice with
    | none => simp [h, hgp, NetCall.isAllowanceQuery]
    | some gp => simp [h, hgp, NetCall.isAllowanceQuery]

/-- Claim C10: connect(signer) rebinds only the contract handle and returns
the very same assembler instance: the instance identity and the
provider, contractAddress, defaultGasLimit and defaultGasPrice fields
are unchanged, the contract keeps its address, and the handle now
carries the signer, making it send-capable. -/
theorem c10_connect_frame (st : TransactiBatchState) (sg : String) :
    (connect st sg).id = st.id ∧
    (connect st sg).provider = st.provider ∧
    (connect st sg).contractAddress = st.contractAddress ∧
    (connect st sg).defaultGasLimit = st.defaultGasLimit ∧
    (connect st sg).defaultGasPrice = st.defaultGasPrice ∧
    (connect st sg).contract.address = st.contract.address ∧
    (connect st sg).contract.signer = some sg :=
  ⟨rfl, rfl, rfl, rfl, rfl, rfl, rfl⟩

/-- Claim C4: for each of the twelve variant entry points, an empty
recipient/address collection is rejected with the empty-collection error
and an empty collaborator trace: no allowance query, no gas simulation,
no price query and no submission is issued. -/
theorem c4_empty_collection_rejected :
    (∀ net st o, sendEthBatch net st ⟨[]⟩ o = (.error .emptyRecipientSet, [])) ∧
    (∀ net st o, estimateEthBatchGas net st ⟨[]⟩ o = (.error .emptyRecipientSet, [])) ∧
    (∀ net st a o, sendEthEqualBatch net st ⟨[], a⟩ o = (.error .emptyRecipientSet, [])) ∧
    (∀ net st a o, estimateEthEqualBatchGas net st ⟨[], a⟩ o = (.error .emptyRecipientSet, [])) ∧
    (∀ net st tok o, sendTokenBatch net st ⟨tok, []⟩ o = (.error .emptyRecipientSet, [])) ∧
    (∀ net st tok o, estimateTokenBatchGas net st ⟨tok, []⟩ o = (.error .emptyRecipientSet, [])) ∧
    (∀ net st tok a o, sendTokenEqualBatch net st ⟨tok, [], a⟩ o = (.error .emptyRecipientSet, [])) ∧
    (∀ net st tok a o, estimateTokenEqualBatchGas net st ⟨tok, [], a⟩ o = (.error .emptyRecipientSet, [])) ∧
    (∀ net st tok o, sendMixedBatch net st ⟨tok, []⟩ o = (.error .emptyRecipientSet, [])) ∧
    (∀ net st tok o, estimateMixedBatchGas net st ⟨tok, []⟩ o = (.error .emptyRecipientSet, [])) ∧
    (∀ net st tok ta ea o, sendMixedEqualBatch net st ⟨tok, [], ta, ea⟩ o = (.error .emptyRecipientSet, [])) ∧
    (∀ net st tok ta ea o, estimateMixedEqualBatchGas net st ⟨tok, [], ta, ea⟩ o = (.error .emptyRecipientSet, [])) :=
  ⟨ fun _ _ _ => rfl, fun _ _ _ => rfl
  , fun _ _ _ _ => rfl, fun _ _ _ _ => rfl
  , fun _ _ _ _ => rfl, fun _ _ _ _ => rfl
  , fun _ _ _ _ _ => rfl, fun _ _ _ _ _ => rfl
  , fun _ _ _ _ => rfl, fun _ _ _ _ => rfl
  , fun _ _ _ _ _ _ => rfl, fun _ _ _ _ _ _ => rfl ⟩

/-- Claim C6: the pure-ETH operations, in send and estimate mode and including
the two-recipient special case, never issue an allowance query on any
execution path, for every input. -/
theorem c6_eth_variants_no_allowance :
    (∀ net st p o, ((sendEthBatch net st p o).2.all (fun x => !x.isAllowanceQuery)) = true) ∧
    (∀ net st p o, ((estimateEthBatchGas net st p o).2.all (fun x => !x.isAllowanceQuery)) = true) ∧
    (∀ net st p o, ((sendEthEqualBatch net st p o).2.all (fun x => !x.isAllowanceQuery)) = true) ∧
    (∀ net st p o, ((estimateEthEqualBatchGas net st p o).2.all (fun x => !x.isAllowanceQuery)) = true) ∧
    (∀ net st r1 a1 r2 a2 o, ((sendEthToTwo net st r1 a1 r2 a2 o).2.all (fun x => !x.isAllowanceQuery)) = true) ∧
    (∀ net st r1 a1 r2 a2 o, ((estimateEthToTwoGas net st r1 a1 r2 a2 o).2.all (fun x => !x.isAllowanceQuery)) = true) := by
  refine ⟨?_, ?_, ?_, ?_, ?_, ?_⟩
  · intro net st p o
    unfold sendEthBatch
    by_cases hl : p.recipients.length = 0
    · simp [hl]
    · cases hp : parseAmounts (p.recipients.map Recipient.amount) <;>
        simp [hl, hp, NetCall.isAllowanceQuery]
  · intro net st p o
    unfold estimateEthBatchGas
    by_cases hl : p.recipients.length = 0
    · simp [hl]
    · cases hp : parseAmounts (p.recipients.map Recipient.amount) <;>
        simp [hl, hp, estimateGas_trace_no_allowance]
  · intro net st p o
    unfold sendEthEqualBatch
    by_cases hl : p.addresses.length = 0
    · simp [hl]
    · cases hp : bigNumberFrom p.amount <;>
        simp [hl, hp, NetCall.isAllowanceQuery]
  · intro net st p o
    unfold estimateEthEqualBatchGas
    by_cases hl : p.addresses.length = 0
    · simp [hl]
    · cases hp : bigNumberFrom p.amount <;>
        simp [hl, hp, estimateGas_trace_no_allowance]
  · intro net st r1 a1 r2 a2 o
    unfold sendEthToTwo
    cases h1 : bigNumberFrom a1 with
    | none => simp [h1]
    | some v1 =>
      cases h2 : bigNumberFrom a2 <;> simp [h1, h2, NetCall.isAllowanceQuery]
  · intro net st r1 a1 r2 a2 o
    unfold estimateEthToTwoGas
    cases h1 : bigNumberFrom a1 with
    | none => simp [h1]
    | some v1 =>
      cases h2 : bigNumberFrom a2 <;> simp [h1, h2, estimateGas_trace_no_allowance]

/-- The fold the source uses, with an arbitrary accumulator. -/
theorem sumBN_foldl (l : List Int) (a : Int) :
    l.foldl (fun acc x => acc + x) a = a + l.sum := by
  induction l generalizing a with
  | nil => simp
  | cons x xs ih => simp [List.foldl_cons, ih]; ring

/-- The aggregated total is the arithmetic sum of the amounts. -/
theorem sumBN_eq_sum (l : List Int) : sumBN l = l.sum := by
  unfold sumBN
  rw [sumBN_foldl]
  simp

/-- Aggregating a repeated amount multiplies it by the count. -/
theorem sumBN_replicate (n : Nat) (a : Int) :
    sumBN (List.replicate n a) = a * n := by
  simp [sumBN_eq_sum, List.sum_replicate, nsmul_eq_mul, mul_comm]

/-- Parsing a repeated amount string yields the repeated integer. -/
theorem parseAmounts_replicate (n : Nat) (s : String) (a : Int)
    (h : bigNumberFrom s = some a) :
    parseAmounts (List.replicate n s) = some (List.replicate n a) := by
  induction n with
  | zero => rfl
  | succ k ih =>
    rw [List.replicate_succ, List.replicate_succ]
    unfold parseAmounts at ih ⊢
    rw [List.mapM_cons, h, ih]
    rfl

/-- A uniform recipient list has a constant amount column. -/
theorem map_amount_uniform (addrs : List String) (aStr : String) :
    ((addrs.map (fun ad => ({ address := ad, amount := aStr } : Recipient))).map
        Recipient.amount) = List.replicate addrs.length aStr := by
  induction addrs with
  | nil => rfl
  | cons x xs ih => simp only [List.map_cons, List.length_cons, List.replicate_succ, ih]

/-- The envelope built with an explicit value attaches exactly it. -/
theorem buildTxOptions_value (st : TransactiBatchState)
    (o : TransactionOptions) (v : Int) :
    (buildTxOptions st o (some v)).attachedValue = v := rfl

/-- The envelope built without a value attaches zero. -/
theorem buildTxOptions_no_value (st : TransactiBatchState)
    (o : TransactionOptions) :
    (buildTxOptions st o none).attachedValue = 0 := rfl

/-- Claim C8: every successful gas estimation returns totalCost equal to the
exact integer product of its gasLimit and gasPrice, where the gasLimit
is the simulated limit the network returned for this call and the
gasPrice is the caller-supplied option when present, else the live
network price. -/
theorem c8_total_cost (net : Network) (c : Contract) (m : String)
    (p : List Arg) (v : Int) (o : TransactionOptions)
    (est : GasEstimation) (tr : List NetCall)
    (h : estimateGas net c m p v o = (.ok est, tr)) :
    est.totalCost = est.gasLimit * est.gasPrice ∧
    net.gasSim m p v = some est.gasLimit ∧
    est.gasPrice = o.gasPrice.getD net.gasPriceNet := by
  unfold estimateGas at h
  cases hs : net.gasSim m p v with
  | none => rw [hs] at h; simp at h
  | some g =>
    rw [hs] at h
    cases hgp : o.gasPrice with
    | none =>
      rw [hgp] at h
      simp only [Prod.mk.injEq, Except.ok.injEq] at h
      obtain ⟨h1, _⟩ := h
      subst h1
      simp [hgp]
    | some gp =>
      rw [hgp] at h
      simp only [Prod.mk.injEq, Except.ok.injEq] at h
      obtain ⟨h1, _⟩ := h
      subst h1
      simp [hgp]

/-- Witness for C8 at a concrete network and call. -/
theorem c8_total_cost_witness :
    (⟨21000, 7, 147000⟩ : GasEstimation).totalCost =
      (⟨21000, 7, 147000⟩ : GasEstimation).gasLimit *
        (⟨21000, 7, 147000⟩ : GasEstimation).gasPrice ∧
    stubNet.gasSim "multiTransfer_OST" [] 0 =
      some (⟨21000, 7, 147000⟩ : GasEstimation).gasLimit ∧
    (⟨21000, 7, 147000⟩ : GasEstimation).gasPrice =
      noOptions.gasPrice.getD stubNet.gasPriceNet :=
  c8_total_cost stubNet ⟨"0xBatchContract", none⟩ "multiTransfer_OST" [] 0
    noOptions ⟨21000, 7, 147000⟩
    [NetCall.gasSimulation "multiTransfer_OST" [] 0 none, NetCall.gasPriceQuery]
    (by rfl)

/-- Claim C7: the aggregated total of an Equal variant is amount times count,
and it coincides with the variable-variant aggregation over a uniform
recipient list of the same length; more generally the variable-variant
aggregation is the arithmetic sum of the parsed amounts, which is
invariant under permutation of the sequence. -/
theorem c7_aggregation :
    (∀ l : List Int, sumBN l = l.sum) ∧
    (∀ l l' : List Int, l.Perm l' → sumBN l = sumBN l') ∧
    (∀ (net : Network) (st : TransactiBatchState) (addrs : List String)
        (aStr : String) (a : Int) (o : TransactionOptions),
      addrs ≠ [] → bigNumberFrom aStr = some a →
      (sendEthEqualBatch net st ⟨addrs, aStr⟩ o).1.map
          (fun r => r.opts.attachedValue) = .ok (a * addrs.length)) ∧
    (∀ (net : Network) (st : TransactiBatchState) (addrs : List String)
        (aStr : String) (a : Int) (o : TransactionOptions),
      addrs ≠ [] → bigNumberFrom aStr = some a →
      (sendEthBatch net st
          ⟨addrs.map (fun ad => { address := ad, amount := aStr })⟩ o).1.map
          (fun r => r.opts.attachedValue) = .ok (a * addrs.length)) := by
  refine ⟨sumBN_eq_sum, ?_, ?_, ?_⟩
  · intro l l' h
    simp [sumBN_eq_sum, h.sum_eq]
  · intro net st addrs aStr a o hne hp
    have hl : ¬(addrs.length = 0) := by
      simpa [List.length_eq_zero] using hne
    unfold sendEthEqualBatch
    simp only [if_neg hl, hp]
    simp [Except.map, TxEnvelope.attachedValue, buildTxOptions]
  · intro net st addrs aStr a o hne hp
    have hl : ¬((addrs.map
        (fun ad => ({ address := ad, amount := aStr } : Recipient))).length = 0) := by
      simpa [List.length_eq_zero, List.map_eq_nil_iff] using hne
    unfold sendEthBatch
    simp only [if_neg hl]
    rw [map_amount_uniform, parseAmounts_replicate addrs.length aStr a hp]
    simp [Except.map, TxEnvelope.attachedValue, buildTxOptions, sumBN_replicate]

/-- Witness for C7 at a two-address uniform batch. -/
theorem c7_aggregation_witness :
    (sendEthEqualBatch stubNet stubState ⟨["0xA", "0xB"], "50"⟩ noOptions).1.map
        (fun r => r.opts.attachedValue) = .ok ((50 : Int) * (2 : Nat)) :=
  c7_aggregation.2.2.1 stubNet stubState ["0xA", "0xB"] "50" 50 noOptions
    (by decide) (by rfl)

/-- Claim C2: for each send-mode token or mixed variant with a non-empty
collection, an attached signer and parseable amounts, an allowance
strictly below the aggregated token total fails with
insufficientAllowance carrying that exact total, the message spells the
total out, and no submission is made (the trace holds only the allowance
query); an allowance at or above the total proceeds to dispatch. -/
theorem c2_allowance_guard :
    (∀ (net : Network) (st : TransactiBatchState) (tok : String)
        (recs : List Recipient) (o : TransactionOptions) (amounts : List Int)
        (sg : String),
      recs ≠ [] → st.contract.signer = some sg →
      parseAmounts (recs.map Recipient.amount) = some amounts →
      (net.allowance tok sg st.contractAddress < sumBN amounts →
        sendTokenBatch net st ⟨tok, recs⟩ o =
          (.error (.insufficientAllowance (sumBN amounts)),
           [NetCall.allowanceQuery tok sg st.contractAddress])) ∧
      (sumBN amounts ≤ net.allowance tok sg st.contractAddress →
        ((sendTokenBatch net st ⟨tok, recs⟩ o).2.any NetCall.isSubmission) = true)) ∧
    (∀ (net : Network) (st : TransactiBatchState) (tok : String)
        (addrs : List String) (aStr : String) (o : TransactionOptions)
        (a : Int) (sg : String),
      addrs ≠ [] → st.contract.signer = some sg →
      bigNumberFrom aStr = some a →
      (net.allowance tok sg st.contractAddress < a * addrs.length →
        sendTokenEqualBatch net st ⟨tok, addrs, aStr⟩ o =
          (.error (.insufficientAllowance (a * addrs.length)),
           [NetCall.allowanceQuery tok sg st.contractAddress])) ∧
      (a * addrs.length ≤ net.allowance tok sg st.contractAddress →
        ((sendTokenEqualBatch net st ⟨tok, addrs, aStr⟩ o).2.any
            NetCall.isSubmission) = true)) ∧
    (∀ (net : Network) (st : TransactiBatchState) (tok : String)
        (recs : List MixedRecipient) (o : TransactionOptions)
        (tokenAmounts ethAmounts : List Int) (sg : String),
      recs ≠ [] → st.contract.signer = some sg →
      parseAmounts (recs.map MixedRecipient.tokenAmount) = some tokenAmounts →
      parseAmounts (recs.map MixedRecipient.ethAmount) = some ethAmounts →
      (net.allowance tok sg st.contractAddress < sumBN tokenAmounts →
        sendMixedBatch net st ⟨tok, recs⟩ o =
          (.error (.insufficientAllowance (sumBN tokenAmounts)),
           [NetCall.allowanceQuery tok sg st.contractAddress])) ∧
      (sumBN tokenAmounts ≤ net.allowance tok sg st.contractAddress →
        ((sendMixedBatch net st ⟨tok, recs⟩ o).2.any NetCall.isSubmission) = true)) ∧
    (∀ (net : Network) (st : TransactiBatchState) (tok : String)
        (addrs : List String) (taStr eaStr : String) (o : TransactionOptions)
        (ta ea : Int) (sg : String),
      addrs ≠ [] → st.contract.signer = some sg →
      bigNumberFrom taStr = some ta → bigNumberFrom eaStr = some ea →
      (net.allowance tok sg st.contractAddress < ta * addrs.length →
        sendMixedEqualBatch net st ⟨tok, addrs, taStr, eaStr⟩ o =
          (.error (.insufficientAllowance (ta * addrs.length)),
           [NetCall.allowanceQuery tok sg st.contractAddress])) ∧
      (ta * addrs.length ≤ net.allowance tok sg st.contractAddress →
        ((sendMixedEqualBatch net st ⟨tok, addrs, taStr, eaStr⟩ o).2.any
            NetCall.isSubmission) = true)) ∧
    (∀ T : Int, insufficientAllowanceMessage T =
      "Insufficient token allowance. Please approve the contract to spend at least "
        ++ toString T ++ " tokens.") := by
  refine ⟨?_, ?_, ?_, ?_, fun _ => rfl⟩
  · intro net st tok recs o amounts sg hne hsg hp
    unfold sendTokenBatch hasEnoughAllowance
    constructor
    · intro hlt
      simp [hne, hsg, hp, decide_eq_false (not_le.2 hlt)]
    · intro hge
      simp [hne, hsg, hp, decide_eq_true hge, NetCall.isSubmission]
  · intro net st tok addrs aStr o a sg hne hsg hp
    unfold sendTokenEqualBatch hasEnoughAllowance
    constructor
    · intro hlt
      simp [hne, hsg, hp, decide_eq_false (not_le.2 hlt)]
    · intro hge
      simp [hne, hsg, hp, decide_eq_true hge, NetCall.isSubmission]
  · intro net st tok recs o tokenAmounts ethAmounts sg hne hsg hpt hpe
    unfold sendMixedBatch hasEnoughAllowance
    constructor
    · intro hlt
      simp [hne, hsg, hpt, hpe, decide_eq_false (not_le.2 hlt)]
    · intro hge
      simp [hne, hsg, hpt, hpe, decide_eq_true hge, NetCall.isSubmission]
  · intro net st tok addrs taStr eaStr o ta ea sg hne hsg hpt hpe
    unfold sendMixedEqualBatch hasEnoughAllowance
    constructor
    · intro hlt
      simp [hne, hsg, hpt, hpe, decide_eq_false (not_le.2 hlt)]
    · intro hge
      simp [hne, hsg, hpt, hpe, decide_eq_true hge, NetCall.isSubmission]

/-- Witness for C2: allowance 100 against an aggregated requirement of
150 fails with the exact total and only the allowance query issued. -/
theorem c2_allowance_guard_witness :
    sendTokenBatch lowAllowanceNet stubSigned
        ⟨"0xToken", [⟨"0xA", "60"⟩, ⟨"0xB", "90"⟩]⟩ noOptions =
      (.error (.insufficientAllowance 150),
       [NetCall.allowanceQuery "0xToken" "0xSigner" "0xBatchContract"]) :=
  (c2_allowance_guard.1 lowAllowanceNet stubSigned "0xToken"
      [⟨"0xA", "60"⟩, ⟨"0xB", "90"⟩] noOptions [60, 90] "0xSigner"
      (by decide) (by rfl) (by rfl)).1 (by decide)

/-- Claim C5: each send-mode token or mixed variant with a non-empty
collection, and the approval helper, fails with noSignerAttached and an
empty collaborator trace when no signer is attached; the estimate-mode
token and mixed entry points need no signer: with none attached, valid
input and a stubbed simulation they return a successful estimation. -/
theorem c5_signer_precondition :
    (∀ (net : Network) (st : TransactiBatchState) (tok : String)
        (recs : List Recipient) (o : TransactionOptions),
      recs ≠ [] → st.contract.signer = none →
      sendTokenBatch net st ⟨tok, recs⟩ o = (.error .noSignerAttached, [])) ∧
    (∀ (net : Network) (st : TransactiBatchState) (tok : String)
        (addrs : List String) (a : String) (o : TransactionOptions),
      addrs ≠ [] → st.contract.signer = none →
      sendTokenEqualBatch net st ⟨tok, addrs, a⟩ o = (.error .noSignerAttached, [])) ∧
    (∀ (net : Network) (st : TransactiBatchState) (tok : String)
        (recs : List MixedRecipient) (o : TransactionOptions),
      recs ≠ [] → st.contract.signer = none →
      sendMixedBatch net st ⟨tok, recs⟩ o = (.error .noSignerAttached, [])) ∧
    (∀ (net : Network) (st : TransactiBatchState) (tok : String)
        (addrs : List String) (ta ea : String) (o : TransactionOptions),
      addrs ≠ [] → st.contract.signer = none →
      sendMixedEqualBatch net st ⟨tok, addrs, ta, ea⟩ o = (.error .noSignerAttached, [])) ∧
    (∀ (net : Network) (st : TransactiBatchState) (tok amt : String)
        (o : TransactionOptions),
      st.contract.signer = none →
      approveTokenSpending net st tok amt o = (.error .noSignerAttached, [])) ∧
    (∀ (net : Network) (st : TransactiBatchState) (tok : String)
        (recs : List Recipient) (o : TransactionOptions) (amounts : List Int)
        (g : Int),
      recs ≠ [] → st.contract.signer = none →
      parseAmounts (recs.map Recipient.amount) = some amounts →
      net.gasSim "multiTransferToken_a4A"
        [ Arg.addr tok, Arg.addrList (recs.map Recipient.address)
        , Arg.numList amounts, Arg.num (sumBN amounts) ] 0 = some g →
      (estimateTokenBatchGas net st ⟨tok, recs⟩ o).1 =
        .ok ⟨g, o.gasPrice.getD net.gasPriceNet,
             g * o.gasPrice.getD net.gasPriceNet⟩) ∧
    (∀ (net : Network) (st : TransactiBatchState) (tok : String)
        (addrs : List String) (aStr : String) (o : TransactionOptions)
        (a g : Int),
      addrs ≠ [] → st.contract.signer = none →
      bigNumberFrom aStr = some a →
      net.gasSim "multiTransferTokenEqual_71p"
        [Arg.addr tok, Arg.addrList addrs, Arg.num a] 0 = some g →
      (estimateTokenEqualBatchGas net st ⟨tok, addrs, aStr⟩ o).1 =
        .ok ⟨g, o.gasPrice.getD net.gasPriceNet,
             g * o.gasPrice.getD net.gasPriceNet⟩) ∧
    (∀ (net : Network) (st : TransactiBatchState) (tok : String)
        (recs : List MixedRecipient) (o : TransactionOptions)
        (tokenAmounts ethAmounts : List Int) (g : Int),
      recs ≠ [] → st.contract.signer = none →
      parseAmounts (recs.map MixedRecipient.tokenAmount) = some tokenAmounts →
      parseAmounts (recs.map MixedRecipient.ethAmount) = some ethAmounts →
      net.gasSim "multiTransferTokenEther"
        [ Arg.addr tok, Arg.addrList (recs.map MixedRecipient.address)
        , Arg.numList tokenAmounts, Arg.num (sumBN tokenAmounts)
        , Arg.numList ethAmounts ] (sumBN ethAmounts) = some g →
      (estimateMixedBatchGas net st ⟨tok, recs⟩ o).1 =
        .ok ⟨g, o.gasPrice.getD net.gasPriceNet,
             g * o.gasPrice.getD net.gasPriceNet⟩) ∧
    (∀ (net : Network) (st : TransactiBatchState) (tok : String)
        (addrs : List String) (taStr eaStr : String) (o : TransactionOptions)
        (ta ea g : Int),
      addrs ≠ [] → st.contract.signer = none →
      bigNumberFrom taStr = some ta → bigNumberFrom eaStr = some ea →
      net.gasSim "multiTransferTokenEtherEqual"
        [Arg.addr tok, Arg.addrList addrs, Arg.num ta, Arg.num ea]
        (ea * addrs.length) = some g →
      (estimateMixedEqualBatchGas net st ⟨tok, addrs, taStr, eaStr⟩ o).1 =
        .ok ⟨g, o.gasPrice.getD net.gasPriceNet,
             g * o.gasPrice.getD net.gasPriceNet⟩) := by
  refine ⟨?_, ?_, ?_, ?_, ?_, ?_, ?_, ?_, ?_⟩
  · intro net st tok recs o hne hsg
    unfold sendTokenBatch
    simp [hne, hsg]
  · intro net st tok addrs a o hne hsg
    unfold sendTokenEqualBatch
    simp [hne, hsg]
  · intro net st tok recs o hne hsg
    unfold sendMixedBatch
    simp [hne, hsg]
  · intro net st tok addrs ta ea o hne hsg
    unfold sendMixedEqualBatch
    simp [hne, hsg]
  · intro net st tok amt o hsg
    unfold approveTokenSpending
    simp [hsg]
  · intro net st tok recs o amounts g hne hsg hp hsim
    unfold estimateTokenBatchGas estimateGas
    simp only [hne, hp]
    simp [hne, hp, hsim]
    cases hgp : o.gasPrice <;> simp [hgp]
  · intro net st tok addrs aStr o a g hne hsg hp hsim
    unfold estimateTokenEqualBatchGas estimateGas
    simp [hne, hp, hsim]
    cases hgp : o.gasPrice <;> simp [hgp]
  · intro net st tok recs o tokenAmounts ethAmounts g hne hsg hpt hpe hsim
    unfold estimateMixedBatchGas estimateGas
    simp [hne, hpt, hpe, hsim]
    cases hgp : o.gasPrice <;> simp [hgp]
  · intro net st tok addrs taStr eaStr o ta ea g hne hsg hpt hpe hsim
    unfold estimateMixedEqualBatchGas estimateGas
    simp [hne, hpt, hpe, hsim]
    cases hgp : o.gasPrice <;> simp [hgp]

/-- Witness for C5: with no signer attached, the token send fails with
noSignerAttached and no collaborator call, while the token estimate
succeeds. -/
theorem c5_signer_precondition_witness :
    sendTokenBatch stubNet stubState ⟨"0xToken", [⟨"0xA", "60"⟩]⟩ noOptions =
      (.error .noSignerAttached, []) ∧
    (estimateTokenBatchGas stubNet stubState ⟨"0xToken", [⟨"0xA", "60"⟩]⟩
        noOptions).1 =
      .ok ⟨21000, noOptions.gasPrice.getD stubNet.gasPriceNet,
           21000 * noOptions.gasPrice.getD stubNet.gasPriceNet⟩ :=
  ⟨ c5_signer_precondition.1 stubNet stubState "0xToken" [⟨"0xA", "60"⟩]
      noOptions (by decide) (by rfl)
  , (c5_signer_precondition.2.2.2.2.2.1 stubNet stubState "0xToken"
      [⟨"0xA", "60"⟩] noOptions [60] 21000 (by decide) (by rfl) (by rfl)
      (by rfl)) ⟩

/-- Claim C9 (amended): for every variant entry point that reaches amount
parsing, an amount field that does not parse as an integer fails with
invalidAmount and no collaborator call; parsing follows the ethers
BigNumber string grammar (an optional leading minus sign, then decimal
digits or a case-insensitive 0x hex string), so negative integers are
NOT rejected, and the amounts reaching aggregation and dispatch are
integers of either sign. -/
theorem c9_invalid_amount_amended :
    (∀ (net : Network) (st : TransactiBatchState) (recs : List Recipient)
        (o : TransactionOptions),
      recs ≠ [] → parseAmounts (recs.map Recipient.amount) = none →
      sendEthBatch net st ⟨recs⟩ o = (.error .invalidAmount, [])) ∧
    (∀ (net : Network) (st : TransactiBatchState) (recs : List Recipient)
        (o : TransactionOptions),
      recs ≠ [] → parseAmounts (recs.map Recipient.amount) = none →
      estimateEthBatchGas net st ⟨recs⟩ o = (.error .invalidAmount, [])) ∧
    (∀ (net : Network) (st : TransactiBatchState) (addrs : List String)
        (a : String) (o : TransactionOptions),
      addrs ≠ [] → bigNumberFrom a = none →
      sendEthEqualBatch net st ⟨addrs, a⟩ o = (.error .invalidAmount, [])) ∧
    (∀ (net : Network) (st : TransactiBatchState) (addrs : List String)
        (a : String) (o : TransactionOptions),
      addrs ≠ [] → bigNumberFrom a = none →
      estimateEthEqualBatchGas net st ⟨addrs, a⟩ o = (.error .invalidAmount, [])) ∧
    (∀ (net : Network) (st : TransactiBatchState) (tok : String)
        (recs : List Recipient) (o : TransactionOptions) (sg : String),
      recs ≠ [] → st.contract.signer = some sg →
      parseAmounts (recs.map Recipient.amount) = none →
      sendTokenBatch net st ⟨tok, recs⟩ o = (.error .invalidAmount, [])) ∧
    (∀ (net : Network) (st : TransactiBatchState) (tok : String)
        (recs : List Recipient) (o : TransactionOptions),
      recs ≠ [] → parseAmounts (recs.map Recipient.amount) = none →
      estimateTokenBatchGas net st ⟨tok, recs⟩ o = (.error .invalidAmount, [])) ∧
    (∀ (net : Network) (st : TransactiBatchState) (tok : String)
        (addrs : List String) (a : String) (o : TransactionOptions) (sg : String),
      addrs ≠ [] → st.contract.signer = some sg → bigNumberFrom a = none →
      sendTokenEqualBatch net st ⟨tok, addrs, a⟩ o = (.error .invalidAmount, [])) ∧
    (∀ (net : Network) (st : TransactiBatchState) (tok : String)
        (addrs : List String) (a : String) (o : TransactionOptions),
      addrs ≠ [] → bigNumberFrom a = none →
      estimateTokenEqualBatchGas net st ⟨tok, addrs, a⟩ o = (.error .invalidAmount, [])) ∧
    (∀ (net : Network) (st : TransactiBatchState) (tok : String)
        (recs : List MixedRecipient) (o : TransactionOptions) (sg : String),
      recs ≠ [] → st.contract.signer = some sg →
      (parseAmounts (recs.map MixedRecipient.tokenAmount) = none ∨
       parseAmounts (recs.map MixedRecipient.ethAmount) = none) →
      sendMixedBatch net st ⟨tok, recs⟩ o = (.error .invalidAmount, [])) ∧
    (∀ (net : Network) (st : TransactiBatchState) (tok : String)
        (recs : List MixedRecipient) (o : TransactionOptions),
      recs ≠ [] →
      (parseAmounts (recs.map MixedRecipient.tokenAmount) = none ∨
       parseAmounts (recs.map MixedRecipient.ethAmount) = none) →
      estimateMixedBatchGas net st ⟨tok, recs⟩ o = (.error .invalidAmount, [])) ∧
    (∀ (net : Network) (st : TransactiBatchState) (tok : String)
        (addrs : List String) (ta ea : String) (o : TransactionOptions)
        (sg : String),
      addrs ≠ [] → st.contract.signer = some sg →
      (bigNumberFrom ta = none ∨ bigNumberFrom ea = none) →
      sendMixedEqualBatch net st ⟨tok, addrs, ta, ea⟩ o = (.error .invalidAmount, [])) ∧
    (∀ (net : Network) (st : TransactiBatchState) (tok : String)
        (addrs : List String) (ta ea : String) (o : TransactionOptions),
      addrs ≠ [] →
      (bigNumberFrom ta = none ∨ bigNumberFrom ea = none) →
      estimateMixedEqualBatchGas net st ⟨tok, addrs, ta, ea⟩ o =
        (.error .invalidAmount, [])) := by
  refine ⟨?_, ?_, ?_, ?_, ?_, ?_, ?_, ?_, ?_, ?_, ?_, ?_⟩
  · intro net st recs o hne hp
    unfold sendEthBatch
    simp [hne, hp]
  · intro net st recs o hne hp
    unfold estimateEthBatchGas
    simp [hne, hp]
  · intro net st addrs a o hne hp
    unfold sendEthEqualBatch
    simp [hne, hp]
  · intro net st addrs a o hne hp
    unfold estimateEthEqualBatchGas
    simp [hne, hp]
  · intro net st tok recs o sg hne hsg hp
    unfold sendTokenBatch
    simp [hne, hsg, hp]
  · intro net st tok recs o hne hp
    unfold estimateTokenBatchGas
    simp [hne, hp]
  · intro net st tok addrs a o sg hne hsg hp
    unfold sendTokenEqualBatch
    simp [hne, hsg, hp]
  · intro net st tok addrs a o hne hp
    unfold estimateTokenEqualBatchGas
    simp [hne, hp]
  · intro net st tok recs o sg hne hsg hp
    unfold sendMixedBatch
    rcases hp with hp | hp
    · simp [hne, hsg, hp]
    · cases hpt : parseAmounts (recs.map MixedRecipient.tokenAmount) <;>
        simp [hne, hsg, hpt, hp]
  · intro net st tok recs o hne hp
    unfold estimateMixedBatchGas
    rcases hp with hp | hp
    · simp [hne, hp]
    · cases hpt : parseAmounts (recs.map MixedRecipient.tokenAmount) <;>
        simp [hne, hpt, hp]
  · intro net st tok addrs ta ea o sg hne hsg hp
    unfold sendMixedEqualBatch
    rcases hp with hp | hp
    · simp [hne, hsg, hp]
    · cases hpt : bigNumberFrom ta <;> simp [hne, hsg, hpt, hp]
  · intro net st tok addrs ta ea o hne hp
    unfold estimateMixedEqualBatchGas
    rcases hp with hp | hp
    · simp [hne, hp]
    · cases hpt : bigNumberFrom ta <;> simp [hne, hpt, hp]

/-- Witness for C9 (amended): a non-numeric amount string fails with
invalidAmount and an empty trace. -/
theorem c9_invalid_amount_witness :
    sendEthBatch stubNet stubState ⟨[⟨"0xA", "abc"⟩]⟩ noOptions =
      (.error .invalidAmount, []) :=
  c9_invalid_amount_amended.1 stubNet stubState [⟨"0xA", "abc"⟩] noOptions
    (by decide) (by rfl)

/-- Counterexample for C9 as stated: the amount string holding a
negative integer is not rejected; the ETH batch dispatches with the
negative amount aggregated into the attached value instead of failing
with invalidAmount. -/
theorem c9_negative_amount_counterexample :
    bigNumberFrom "-5" = some (-5) ∧ ((-5 : Int) < 0) ∧
    (sendEthBatch stubNet stubState ⟨[⟨"0xA", "-5"⟩]⟩ noOptions).1 =
      .ok { method := "multiTransfer_OST"
          , args := [Arg.addrList ["0xA"], Arg.numList [-5]]
          , opts := { gasLimit := none, gasPrice := none
                    , value := some (-5), nonce := none } } :=
  ⟨by rfl, by decide, by rfl⟩

/-- Claim C3 (amended): only the four send-mode token/mixed entry points
perform the allowance check; on their success path the allowance query
strictly precedes the submission.  The four estimate-mode token/mixed
entry points never issue an allowance query on any execution path. -/
theorem c3_allowance_only_in_send_mode :
    (∀ (net : Network) (st : TransactiBatchState) (p : TokenBatchParams)
        (o : TransactionOptions),
      ((estimateTokenBatchGas net st p o).2.all (fun x => !x.isAllowanceQuery)) = true) ∧
    (∀ (net : Network) (st : TransactiBatchState) (p : TokenEqualBatchParams)
        (o : TransactionOptions),
      ((estimateTokenEqualBatchGas net st p o).2.all (fun x => !x.isAllowanceQuery)) = true) ∧
    (∀ (net : Network) (st : TransactiBatchState) (p : MixedBatchParams)
        (o : TransactionOptions),
      ((estimateMixedBatchGas net st p o).2.all (fun x => !x.isAllowanceQuery)) = true) ∧
    (∀ (net : Network) (st : TransactiBatchState) (p : MixedEqualBatchParams)
        (o : TransactionOptions),
      ((estimateMixedEqualBatchGas net st p o).2.all (fun x => !x.isAllowanceQuery)) = true) ∧
    (∀ (net : Network) (st : TransactiBatchState) (tok : String)
        (recs : List Recipient) (o : TransactionOptions) (amounts : List Int)
        (sg : String),
      recs ≠ [] → st.contract.signer = some sg →
      parseAmounts (recs.map Recipient.amount) = some amounts →
      sumBN amounts ≤ net.allowance tok sg st.contractAddress →
      (sendTokenBatch net st ⟨tok, recs⟩ o).2 =
        [ NetCall.allowanceQuery tok sg st.contractAddress
        , NetCall.submission "multiTransferToken_a4A"
            [ Arg.addr tok, Arg.addrList (recs.map Recipient.address)
            , Arg.numList amounts, Arg.num (sumBN amounts) ]
            (buildTxOptions st o none) ]) ∧
    (∀ (net : Network) (st : TransactiBatchState) (tok : String)
        (addrs : List String) (aStr : String) (o : TransactionOptions)
        (a : Int) (sg : String),
      addrs ≠ [] → st.contract.signer = some sg →
      bigNumberFrom aStr = some a →
      a * addrs.length ≤ net.allowance tok sg st.contractAddress →
      (sendTokenEqualBatch net st ⟨tok, addrs, aStr⟩ o).2 =
        [ NetCall.allowanceQuery tok sg st.contractAddress
        , NetCall.submission "multiTransferTokenEqual_71p"
            [Arg.addr tok, Arg.addrList addrs, Arg.num a]
            (buildTxOptions st o none) ]) ∧
    (∀ (net : Network) (st : TransactiBatchState) (tok : String)
        (recs : List MixedRecipient) (o : TransactionOptions)
        (tokenAmounts ethAmounts : List Int) (sg : String),
      recs ≠ [] → st.contract.signer = some sg →
      parseAmounts (recs.map MixedRecipient.tokenAmount) = some tokenAmounts →
      parseAmounts (recs.map MixedRecipient.ethAmount) = some ethAmounts →
      sumBN tokenAmounts ≤ net.allowance tok sg st.contractAddress →
      (sendMixedBatch net st ⟨tok, recs⟩ o).2 =
        [ NetCall.allowanceQuery tok sg st.contractAddress
        , NetCall.submission "multiTransferTokenEther"
            [ Arg.addr tok, Arg.addrList (recs.map MixedRecipient.address)
            , Arg.numList tokenAmounts, Arg.num (sumBN tokenAmounts)
            , Arg.numList ethAmounts ]
            (buildTxOptions st o (some (sumBN ethAmounts))) ]) ∧
    (∀ (net : Network) (st : TransactiBatchState) (tok : String)
        (addrs : List String) (taStr eaStr : String) (o : TransactionOptions)
        (ta ea : Int) (sg : String),
      addrs ≠ [] → st.contract.signer = some sg →
      bigNumberFrom taStr = some ta → bigNumberFrom eaStr = some ea →
      ta * addrs.length ≤ net.allowance tok sg st.contractAddress →
      (sendMixedEqualBatch net st ⟨tok, addrs, taStr, eaStr⟩ o).2 =
        [ NetCall.allowanceQuery tok sg st.contractAddress
        , NetCall.submission "multiTransferTokenEtherEqual"
            [ Arg.addr tok, Arg.addrList addrs
            , Arg.num ta, Arg.num ea ]
            (buildTxOptions st o (some (ea * addrs.length))) ]) := by
  refine ⟨?_, ?_, ?_, ?_, ?_, ?_, ?_, ?_⟩
  · intro net st p o
    unfold estimateTokenBatchGas
    by_cases hl : p.recipients.length = 0
    · simp [hl]
    · cases hp : parseAmounts (p.recipients.map Recipient.amount) <;>
        simp [hl, hp, estimateGas_trace_no_allowance]
  · intro net st p o
    unfold estimateTokenEqualBatchGas
    by_cases hl : p.addresses.length = 0
    · simp [hl]
    · cases hp : bigNumberFrom p.amount <;>
        simp [hl, hp, estimateGas_trace_no_allowance]
  · intro net st p o
    unfold estimateMixedBatchGas
    by_cases hl : p.recipients.length = 0
    · simp [hl]
    · cases hpt : parseAmounts (p.recipients.map MixedRecipient.tokenAmount) with
      | none => simp [hl, hpt]
      | some tas =>
        cases hpe : parseAmounts (p.recipients.map MixedRecipient.ethAmount) <;>
          simp [hl, hpt, hpe, estimateGas_trace_no_allowance]
  · intro net st p o
    unfold estimateMixedEqualBatchGas
    by_cases hl : p.addresses.length = 0
    · simp [hl]
    · cases hpt : bigNumberFrom p.tokenAmount with
      | none => simp [hl, hpt]
      | some ta =>
        cases hpe : bigNumberFrom p.ethAmount <;>
          simp [hl, hpt, hpe, estimateGas_trace_no_allowance]
  · intro net st tok recs o amounts sg hne hsg hp hge
    unfold sendTokenBatch hasEnoughAllowance
    simp [hne, hsg, hp, decide_eq_true hge]
  · intro net st tok addrs aStr o a sg hne hsg hp hge
    unfold sendTokenEqualBatch hasEnoughAllowance
    simp [hne, hsg, hp, decide_eq_true hge]
  · intro net st tok recs o tokenAmounts ethAmounts sg hne hsg hpt hpe hge
    unfold sendMixedBatch hasEnoughAllowance
    simp [hne, hsg, hpt, hpe, decide_eq_true hge]
  · intro net st tok addrs taStr eaStr o ta ea sg hne hsg hpt hpe hge
    unfold sendMixedEqualBatch hasEnoughAllowance
    simp [hne, hsg, hpt, hpe, decide_eq_true hge]

/-- Witness for C3 (amended): a send-mode token batch with sufficient
allowance issues the allowance query first and the submission second. -/
theorem c3_allowance_only_in_send_mode_witness :
    (sendTokenBatch stubNet stubSigned ⟨"0xToken", [⟨"0xA", "60"⟩]⟩ noOptions).2 =
      [ NetCall.allowanceQuery "0xToken" "0xSigner" "0xBatchContract"
      , NetCall.submission "multiTransferToken_a4A"
          [ Arg.addr "0xToken", Arg.addrList ["0xA"]
          , Arg.numList [60], Arg.num 60 ]
          (buildTxOptions stubSigned noOptions none) ] :=
  c3_allowance_only_in_send_mode.2.2.2.2.1 stubNet stubSigned "0xToken"
    [⟨"0xA", "60"⟩] noOptions [60] "0xSigner"
    (by decide) (by rfl) (by rfl) (by decide)

/-- Counterexample for C3 as stated: the estimate-mode token entry point
completes a successful estimation with zero allowance queries, even with
a signer attached, so the allowance check is not performed by the
estimate-mode token/mixed entry points. -/
theorem c3_estimate_skips_allowance_counterexample :
    estimateTokenBatchGas stubNet stubSigned ⟨"0xToken", [⟨"0xA", "100"⟩]⟩
        noOptions =
      (.ok ⟨21000, 7, 147000⟩,
       [ NetCall.gasSimulation "multiTransferToken_a4A"
           [ Arg.addr "0xToken", Arg.addrList ["0xA"]
           , Arg.numList [100], Arg.num 100 ] 0 none
       , NetCall.gasPriceQuery ]) ∧
    ((estimateTokenBatchGas stubNet stubSigned ⟨"0xToken", [⟨"0xA", "100"⟩]⟩
        noOptions).2.all (fun x => !x.isAllowanceQuery)) = true :=
  ⟨by rfl, by rfl⟩

/-- Claim C1 (amended): for every non-empty collection, each variant
dispatches exactly one contract method with the positional argument
order of the table and the stated attached value, and in estimate mode
forwards the same method name, argument list and value to the gas
estimator; the actual on-chain method names carry contract suffixes:
EthVariable uses multiTransfer_OST, EthEqual multiTransferEqual_L1R,
TokenVariable multiTransferToken_a4A, TokenEqual
multiTransferTokenEqual_71p, while MixedVariable multiTransferTokenEther
and MixedEqual multiTransferTokenEtherEqual are unsuffixed. -/
theorem c1_dispatch_table :
    (∀ (net : Network) (st : TransactiBatchState) (recs : List Recipient)
        (o : TransactionOptions) (amounts : List Int),
      recs ≠ [] → parseAmounts (recs.map Recipient.amount) = some amounts →
      sendEthBatch net st ⟨recs⟩ o =
        (.ok { method := "multiTransfer_OST"
             , args := [ Arg.addrList (recs.map Recipient.address)
                       , Arg.numList amounts ]
             , opts := buildTxOptions st o (some (sumBN amounts)) }
        , [NetCall.submission "multiTransfer_OST"
             [Arg.addrList (recs.map Recipient.address), Arg.numList amounts]
             (buildTxOptions st o (some (sumBN amounts)))]) ∧
      (buildTxOptions st o (some (sumBN amounts))).attachedValue = sumBN amounts) ∧
    (∀ (net : Network) (st : TransactiBatchState) (recs : List Recipient)
        (o : TransactionOptions) (amounts : List Int),
      recs ≠ [] → parseAmounts (recs.map Recipient.amount) = some amounts →
      estimateEthBatchGas net st ⟨recs⟩ o =
        estimateGas net st.contract "multiTransfer_OST"
          [Arg.addrList (recs.map Recipient.address), Arg.numList amounts]
          (sumBN amounts) o) ∧
    (∀ (net : Network) (st : TransactiBatchState) (addrs : List String)
        (aStr : String) (o : TransactionOptions) (a : Int),
      addrs ≠ [] → bigNumberFrom aStr = some a →
      sendEthEqualBatch net st ⟨addrs, aStr⟩ o =
        (.ok { method := "multiTransferEqual_L1R"
             , args := [Arg.addrList addrs, Arg.num a]
             , opts := buildTxOptions st o (some (a * addrs.length)) }
        , [NetCall.submission "multiTransferEqual_L1R"
             [Arg.addrList addrs, Arg.num a]
             (buildTxOptions st o (some (a * addrs.length)))]) ∧
      (buildTxOptions st o (some (a * addrs.length))).attachedValue =
        a * addrs.length) ∧
    (∀ (net : Network) (st : TransactiBatchState) (addrs : List String)
        (aStr : String) (o : TransactionOptions) (a : Int),
      addrs ≠ [] → bigNumberFrom aStr = some a →
      estimateEthEqualBatchGas net st ⟨addrs, aStr⟩ o =
        estimateGas net st.contract "multiTransferEqual_L1R"
          [Arg.addrList addrs, Arg.num a] (a * addrs.length) o) ∧
    (∀ (net : Network) (st : TransactiBatchState) (tok : String)
        (recs : List Recipient) (o : TransactionOptions) (amounts : List Int)
        (sg : String),
      recs ≠ [] → st.contract.signer = some sg →
      parseAmounts (recs.map Recipient.amount) = some amounts →
      sumBN amounts ≤ net.allowance tok sg st.contractAddress →
      (sendTokenBatch net st ⟨tok, recs⟩ o).1 =
        .ok { method := "multiTransferToken_a4A"
            , args := [ Arg.addr tok
                      , Arg.addrList (recs.map Recipient.address)
                      , Arg.numList amounts, Arg.num (sumBN amounts) ]
            , opts := buildTxOptions st o none } ∧
      (buildTxOptions st o none).attachedValue = 0) ∧
    (∀ (net : Network) (st : TransactiBatchState) (tok : String)
        (recs : List Recipient) (o : TransactionOptions) (amounts : List Int),
      recs ≠ [] → parseAmounts (recs.map Recipient.amount) = some amounts →
      estimateTokenBatchGas net st ⟨tok, recs⟩ o =
        estimateGas net st.contract "multiTransferToken_a4A"
          [ Arg.addr tok, Arg.addrList (recs.map Recipient.address)
          , Arg.numList amounts, Arg.num (sumBN amounts) ] 0 o) ∧
    (∀ (net : Network) (st : TransactiBatchState) (tok : String)
        (addrs : List String) (aStr : String) (o : TransactionOptions)
        (a : Int) (sg : String),
      addrs ≠ [] → st.contract.signer = some sg →
      bigNumberFrom aStr = some a →
      a * addrs.length ≤ net.allowance tok sg st.contractAddress →
      (sendTokenEqualBatch net st ⟨tok, addrs, aStr⟩ o).1 =
        .ok { method := "multiTransferTokenEqual_71p"
            , args := [Arg.addr tok, Arg.addrList addrs, Arg.num a]
            , opts := buildTxOptions st o none } ∧
      (buildTxOptions st o none).attachedValue = 0) ∧
    (∀ (net : Network) (st : TransactiBatchState) (tok : String)
        (addrs : List String) (aStr : String) (o : TransactionOptions)
        (a : Int),
      addrs ≠ [] → bigNumberFrom aStr = some a →
      estimateTokenEqualBatchGas net st ⟨tok, addrs, aStr⟩ o =
        estimateGas net st.contract "multiTransferTokenEqual_71p"
          [Arg.addr tok, Arg.addrList addrs, Arg.num a] 0 o) ∧
    (∀ (net : Network) (st : TransactiBatchState) (tok : String)
        (recs : List MixedRecipient) (o : TransactionOptions)
        (tokenAmounts ethAmounts : List Int) (sg : String),
      recs ≠ [] → st.contract.signer = some sg →
      parseAmounts (recs.map MixedRecipient.tokenAmount) = some tokenAmounts →
      parseAmounts (recs.map MixedRecipient.ethAmount) = some ethAmounts →
      sumBN tokenAmounts ≤ net.allowance tok sg st.contractAddress →
      (sendMixedBatch net st ⟨tok, recs⟩ o).1 =
        .ok { method := "multiTransferTokenEther"
            , args := [ Arg.addr tok
                      , Arg.addrList (recs.map MixedRecipient.address)
                      , Arg.numList tokenAmounts, Arg.num (sumBN tokenAmounts)
                      , Arg.numList ethAmounts ]
            , opts := buildTxOptions st o (some (sumBN ethAmounts)) } ∧
      (buildTxOptions st o (some (sumBN ethAmounts))).attachedValue =
        sumBN ethAmounts) ∧
    (∀ (net : Network) (st : TransactiBatchState) (tok : String)
        (recs : List MixedRecipient) (o : TransactionOptions)
        (tokenAmounts ethAmounts : List Int),
      recs ≠ [] →
      parseAmounts (recs.map MixedRecipient.tokenAmount) = some tokenAmounts →
      parseAmounts (recs.map MixedRecipient.ethAmount) = some ethAmounts →
      estimateMixedBatchGas net st ⟨tok, recs⟩ o =
        estimateGas net st.contract "multiTransferTokenEther"
          [ Arg.addr tok, Arg.addrList (recs.map MixedRecipient.address)
          , Arg.numList tokenAmounts, Arg.num (sumBN tokenAmounts)
          , Arg.numList ethAmounts ] (sumBN ethAmounts) o) ∧
    (∀ (net : Network) (st : TransactiBatchState) (tok : String)
        (addrs : List String) (taStr eaStr : String) (o : TransactionOptions)
        (ta ea : Int) (sg : String),
      addrs ≠ [] → st.contract.signer = some sg →
      bigNumberFrom taStr = some ta → bigNumberFrom eaStr = some ea →
      ta * addrs.length ≤ net.allowance tok sg st.contractAddress →
      (sendMixedEqualBatch net st ⟨tok, addrs, taStr, eaStr⟩ o).1 =
        .ok { method := "multiTransferTokenEtherEqual"
            , args := [ Arg.addr tok, Arg.addrList addrs
                      , Arg.num ta, Arg.num ea ]
            , opts := buildTxOptions st o (some (ea * addrs.length)) } ∧
      (buildTxOptions st o (some (ea * addrs.length))).attachedValue =
        ea * addrs.length) ∧
    (∀ (net : Network) (st : TransactiBatchState) (tok : String)
        (addrs : List String) (taStr eaStr : String) (o : TransactionOptions)
        (ta ea : Int),
      addrs ≠ [] →
      bigNumberFrom taStr = some ta → bigNumberFrom eaStr = some ea →
      estimateMixedEqualBatchGas net st ⟨tok, addrs, taStr, eaStr⟩ o =
        estimateGas net st.contract "multiTransferTokenEtherEqual"
          [Arg.addr tok, Arg.addrList addrs, Arg.num ta, Arg.num ea]
          (ea * addrs.length) o) := by
  refine ⟨?_, ?_, ?_, ?_, ?_, ?_, ?_, ?_, ?_, ?_, ?_, ?_⟩
  · intro net st recs o amounts hne hp
    unfold sendEthBatch
    exact ⟨by simp [hne, hp], rfl⟩
  · intro net st recs o amounts hne hp
    unfold estimateEthBatchGas
    simp [hne, hp]
  · intro net st addrs aStr o a hne hp
    unfold sendEthEqualBatch
    exact ⟨by simp [hne, hp], rfl⟩
  · intro net st addrs aStr o a hne hp
    unfold estimateEthEqualBatchGas
    simp [hne, hp]
  · intro net st tok recs o amounts sg hne hsg hp hge
    unfold sendTokenBatch hasEnoughAllowance
    exact ⟨by simp [hne, hsg, hp, decide_eq_true hge], rfl⟩
  · intro net st tok recs o amounts hne hp
    unfold estimateTokenBatchGas
    simp [hne, hp]
  · intro net st tok addrs aStr o a sg hne hsg hp hge
    unfold sendTokenEqualBatch hasEnoughAllowance
    exact ⟨by simp [hne, hsg, hp, decide_eq_true hge], rfl⟩
  · intro net st tok addrs aStr o a hne hp
    unfold estimateTokenEqualBatchGas
    simp [hne, hp]
  · intro net st tok recs o tokenAmounts ethAmounts sg hne hsg hpt hpe hge
    unfold sendMixedBatch hasEnoughAllowance
    exact ⟨by simp [hne, hsg, hpt, hpe, decide_eq_true hge], rfl⟩
  · intro net st tok recs o tokenAmounts ethAmounts hne hpt hpe
    unfold estimateMixedBatchGas
    simp [hne, hpt, hpe]
  · intro net st tok addrs taStr eaStr o ta ea sg hne hsg hpt hpe hge
    unfold sendMixedEqualBatch hasEnoughAllowance
    exact ⟨by simp [hne, hsg, hpt, hpe, decide_eq_true hge], rfl⟩
  · intro net st tok addrs taStr eaStr o ta ea hne hpt hpe
    unfold estimateMixedEqualBatchGas
    simp [hne, hpt, hpe]

/-- Witness for C1 (amended) at the EthVariable scenario of the spec:
recipients (A, 100) and (B, 200) dispatch multiTransfer_OST with the
address and amount columns and 300 attached. -/
theorem c1_dispatch_table_witness :
    sendEthBatch stubNet stubState ⟨[⟨"0xA", "100"⟩, ⟨"0xB", "200"⟩]⟩ noOptions =
      (.ok { method := "multiTransfer_OST"
           , args := [Arg.addrList ["0xA", "0xB"], Arg.numList [100, 200]]
           , opts := buildTxOptions stubState noOptions (some 300) }
      , [NetCall.submission "multiTransfer_OST"
           [Arg.addrList ["0xA", "0xB"], Arg.numList [100, 200]]
           (buildTxOptions stubState noOptions (some 300))]) ∧
    (buildTxOptions stubState noOptions (some 300)).attachedValue = 300 :=
  c1_dispatch_table.1 stubNet stubState [⟨"0xA", "100"⟩, ⟨"0xB", "200"⟩]
    noOptions [100, 200] (by decide) (by rfl)

/-- Counterexample for C1 as stated: at the very scenario of the spec
the dispatched method name is multiTransfer_OST, which differs from the
table entry multiTransfer. -/
theorem c1_method_name_counterexample :
    (sendEthBatch stubNet stubState ⟨[⟨"0xA", "100"⟩, ⟨"0xB", "200"⟩]⟩
        noOptions).1.map TxResponse.method = .ok "multiTransfer_OST" ∧
    ("multiTransfer_OST" : String) ≠ "multiTransfer" :=
  ⟨by rfl, by decide⟩

/-- The parser accepts the full ethers BigNumber string grammar: hex
strings, upper or lower case, signed or not, parse to their value, and
leading-zero decimals stay decimal. -/
theorem bigNumberFrom_grammar_examples :
    bigNumberFrom "0x0a" = some 10 ∧
    bigNumberFrom "0X1F" = some 31 ∧
    bigNumberFrom "-0x0a" = some (-10) ∧
    bigNumberFrom "0123" = some 123 ∧
    bigNumberFrom "0x" = none ∧
    bigNumberFrom "1.5" = none :=
  ⟨rfl, rfl, rfl, rfl, rfl, rfl⟩
